import Mathlib

/-!
Verification development for the firefly-cli example assets
(`src/assets/main.c`, `src/assets/main.cpp`) and the lifecycle / canvas
contract they exercise.  The examples register three lifecycle handlers
(boot, update, render); the render handler clears the screen to white and
draws one filled, stroked triangle.  The vendored engine implementation is
not part of the repository excerpt, so the canvas rasterization and the
lifecycle dispatcher are modelled from the specification; the handler
bodies themselves are embedded directly from the two source files.
-/

/-- Palette of named colors used by the examples.  The engine palette is an
opaque process-wide constant set; the examples reference WHITE, LIGHT_GRAY
and DARK_BLUE. -/
inductive Color where
  | white
  | lightGray
  | darkBlue
deriving DecidableEq, Repr

def WHITE : Color := Color.white

def LIGHT_GRAY : Color := Color.lightGray

def DARK_BLUE : Color := Color.darkBlue

/-- A point in canvas space: two signed integer coordinates, origin
top-left, x to the right, y down. -/
structure Point where
  x : Int
  y : Int
deriving DecidableEq, Repr

/-- A per-primitive style: fill color, stroke color and stroke width in
pixels. -/
structure Style where
  fill_color : Color
  stroke_color : Color
  stroke_width : Int
deriving DecidableEq, Repr

/-- One draw call submitted to the immediate canvas API during the render
phase. -/
inductive DrawCall where
  | clearScreen (color : Color)
  | drawTriangle (p1 p2 p3 : Point) (style : Style)
deriving DecidableEq, Repr

/-- The boot handler of both example files: its body is empty, so it
submits no draw calls. -/
def boot_calls : List DrawCall := []

/-- The update handler of both example files: its body is empty, so it
submits no draw calls. -/
def update_calls : List DrawCall := []

/-- The render handler of `src/assets/main.c`.  The C code declares the
three points and the style as uninitialized stack variables and then
assigns every field; the arbitrary initial contents of those variables are
the parameters `g1 g2 g3 gs`, and each field assignment is a functional
record update. -/
def render_c (g1 g2 g3 : Point) (gs : Style) : List DrawCall :=
  let p1 := { g1 with x := 60 }
  let p1 := { p1 with y := 10 }
  let p2 := { g2 with x := 40 }
  let p2 := { p2 with y := 40 }
  let p3 := { g3 with x := 80 }
  let p3 := { p3 with y := 40 }
  let s := { gs with fill_color := LIGHT_GRAY }
  let s := { s with stroke_color := DARK_BLUE }
  let s := { s with stroke_width := 1 }
  [DrawCall.clearScreen WHITE, DrawCall.drawTriangle p1 p2 p3 s]

/-- The render handler of `src/assets/main.cpp`: the same two draw calls,
with the points and the style built from brace literals. -/
def render_cpp : List DrawCall :=
  [DrawCall.clearScreen WHITE,
   DrawCall.drawTriangle ⟨60, 10⟩ ⟨40, 40⟩ ⟨80, 40⟩
     { fill_color := LIGHT_GRAY, stroke_color := DARK_BLUE, stroke_width := 1 }]

/-- Helper: the C render handler builds the same trace as the C++ one, for
every initial content of its stack variables. -/
theorem render_c_eq_render_cpp (g1 g2 g3 : Point) (gs : Style) :
    render_c g1 g2 g3 gs = render_cpp := by
  cases g1
  cases g2
  cases g3
  cases gs
  rfl

/-- Is this draw call a screen clear? -/
def isClear : DrawCall → Bool
  | DrawCall.clearScreen _ => true
  | DrawCall.drawTriangle _ _ _ _ => false

/-- Is this draw call a primitive draw? -/
def isDraw : DrawCall → Bool
  | DrawCall.clearScreen _ => false
  | DrawCall.drawTriangle _ _ _ _ => true

/-- A call trace respects the clear-before-draw invariant when every
primitive draw is preceded (strictly earlier in the trace) by a screen
clear. -/
def clearPrecedesDraw (t : List DrawCall) : Prop :=
  ∀ i : Fin t.length, isDraw (t.get i) = true →
    ∃ j : Fin t.length, j.val < i.val ∧ isClear (t.get j) = true

/-- Signed edge function: twice the signed area of the triangle `a b q`.
Positive when `q` lies to one side of the directed line `a → b`, negative
on the other side, zero on the line. -/
def cross (a b q : Point) : Int :=
  (b.x - a.x) * (q.y - a.y) - (b.y - a.y) * (q.x - a.x)

/-- Modelled from the spec: the deterministic, edge-exclusive fill rule
chosen for the missing engine rasterizer.  A pixel is in the fill of the
triangle when it lies strictly on the same side of all three directed
edges; degenerate (collinear or coincident) triangles therefore have an
empty fill. -/
def inFillB (p1 p2 p3 : Point) (x y : Int) : Bool :=
  let d1 := cross p1 p2 ⟨x, y⟩
  let d2 := cross p2 p3 ⟨x, y⟩
  let d3 := cross p3 p1 ⟨x, y⟩
  (decide (0 < d1) && decide (0 < d2) && decide (0 < d3)) ||
    (decide (d1 < 0) && decide (d2 < 0) && decide (d3 < 0))

/-- Modelled from the spec: the pixel `(x, y)` lies on the closed line
segment from `a` to `b` (on the line through them and inside their
bounding box). -/
def onSegB (a b : Point) (x y : Int) : Bool :=
  decide (cross a b ⟨x, y⟩ = 0) &&
    decide (min a.x b.x ≤ x) && decide (x ≤ max a.x b.x) &&
    decide (min a.y b.y ≤ y) && decide (y ≤ max a.y b.y)

/-- Modelled from the spec: the deterministic one-pixel stroke policy
chosen for the missing engine rasterizer — a pixel is on the stroke when
it lies on one of the three edge segments.  A positive stroke width makes
the stroke visible; the examples only use widths 0 and 1. -/
def onStrokeB (p1 p2 p3 : Point) (x y : Int) : Bool :=
  onSegB p1 p2 x y || onSegB p2 p3 x y || onSegB p3 p1 x y

/-- The canvas as a pixel image: a color at every integer coordinate pair.
Only the pixels inside the canvas bounds are observable. -/
def Canvas : Type := Int → Int → Color

/-- The pixel `(x, y)` lies inside a canvas of width `W` and height `H`. -/
def inBoundsB (W H : Nat) (x y : Int) : Bool :=
  decide (0 ≤ x) && decide (x < (W : Int)) &&
    decide (0 ≤ y) && decide (y < (H : Int))

/-- Modelled from the spec: the ideal, unclipped per-pixel effect of one
draw call over the whole integer plane.  `ClearScreen` overwrites every
pixel; `DrawTriangle` paints the stroke (when the width is positive) over
the fill over the previous content, so the stroke is never occluded by the
fill. -/
def idealPixel (call : DrawCall) (c : Canvas) (x y : Int) : Color :=
  match call with
  | DrawCall.clearScreen col => col
  | DrawCall.drawTriangle p1 p2 p3 s =>
    if decide (0 < s.stroke_width) && onStrokeB p1 p2 p3 x y then
      s.stroke_color
    else if inFillB p1 p2 p3 x y then s.fill_color
    else c x y

/-- Modelled from the spec: one synchronous draw call applied to the
canvas, clipped to the canvas bounds — pixels outside the bounds are never
written, and out-of-range geometry is silently clipped rather than
rejected. -/
def applyCall (W H : Nat) (c : Canvas) (call : DrawCall) : Canvas :=
  fun x y => if inBoundsB W H x y then idealPixel call c x y else c x y

/-- Modelled from the spec: a render-phase call sequence rasterized in
submission order, each call applied over the image left by the previous
ones. -/
def renderFrame (W H : Nat) (calls : List DrawCall) (c : Canvas) : Canvas :=
  calls.foldl (applyCall W H) c

/-- Helper: the sum of the three edge functions of a triangle at any pixel
is twice the triangle's signed area. -/
theorem cross_sum (p1 p2 p3 q : Point) :
    cross p1 p2 q + cross p2 p3 q + cross p3 p1 q = cross p1 p2 p3 := by
  simp only [cross]
  ring

/-- Helper: a degenerate (zero-area) triangle has an empty fill under the
strict fill rule. -/
theorem inFillB_degenerate (p1 p2 p3 : Point) (x y : Int)
    (h : cross p1 p2 p3 = 0) : inFillB p1 p2 p3 x y = false := by
  have hsum := cross_sum p1 p2 p3 ⟨x, y⟩
  rw [h] at hsum
  simp only [inFillB, Bool.or_eq_false_iff, Bool.and_eq_false_iff,
    decide_eq_false_iff_not, not_lt]
  omega

/-- One observable lifecycle event: an invocation of one of the three
user-supplied handlers. -/
inductive Event where
  | boot
  | update
  | render
deriving DecidableEq, Repr

/-- Modelled from the spec: the per-tick event pattern of the missing
dispatcher — each tick invokes the update handler and then the render
handler. -/
def tickEvents : Nat → List Event
  | 0 => []
  | n + 1 => Event.update :: Event.render :: tickEvents n

/-- Modelled from the spec: the full dispatcher trace for a run of `n`
ticks — the boot handler is invoked once at process start, before any
update or render event. -/
def lifecycleTrace (n : Nat) : List Event :=
  Event.boot :: tickEvents n

/-- Modelled from the spec: the dispatcher threading an abstract program
state through the per-tick handlers, update before render on every
tick. -/
def runTicks {σ : Type} (u r : σ → σ) : Nat → σ → σ
  | 0, s => s
  | n + 1, s => runTicks u r n (r (u s))

/-- Modelled from the spec: a full dispatcher run — the boot handler is
applied once, then `n` ticks of update followed by render. -/
def runLifecycle {σ : Type} (b u r : σ → σ) (n : Nat) (s : σ) : σ :=
  runTicks u r n (b s)

/-- Helper: the tick events of a run never contain a boot event. -/
theorem count_boot_tickEvents (n : Nat) :
    (tickEvents n).count Event.boot = 0 := by
  induction n with
  | zero => rfl
  | succ n ih => simp [tickEvents, List.count_cons, ih]

/-- Helper: for every tick `k` of a long enough run, the update event of
tick `k` sits at position `2*k` of the tick trace and its render event
right after it. -/
theorem tickEvents_getElem (k a : Nat) :
    (tickEvents (k + 1 + a))[2 * k]? = some Event.update ∧
      (tickEvents (k + 1 + a))[2 * k + 1]? = some Event.render := by
  induction k with
  | zero =>
    have h0 : 0 + 1 + a = a + 1 := by omega
    rw [h0, tickEvents]
    simp
  | succ k ih =>
    have h1 : k + 1 + 1 + a = (k + 1 + a) + 1 := by omega
    have h2 : 2 * (k + 1) = 2 * k + 1 + 1 := by omega
    rw [h1, h2, tickEvents]
    simpa using ih

/-- Helper: a run with the identity handlers leaves the program state
unchanged. -/
theorem runTicks_id {σ : Type} (n : Nat) (s : σ) :
    runTicks id id n s = s := by
  induction n with
  | zero => rfl
  | succ n ih => simpa [runTicks] using ih

/-- Helper: the coincident-point triangle's stroke covers exactly the one
pixel at that point. -/
theorem onStrokeB_coincident (p : Point) (x y : Int) :
    onStrokeB p p p x y = (decide (x = p.x) && decide (y = p.y)) := by
  cases h1 : onStrokeB p p p x y <;>
    cases h2 : (decide (x = p.x) && decide (y = p.y)) <;>
      simp_all [onStrokeB, onSegB, cross] <;> omega

/-- C1: every invocation of the example render handlers submits exactly
`ClearScreen(WHITE)` followed by `DrawTriangle` at vertices (60,10),
(40,40), (80,40) with fill LIGHT_GRAY, stroke DARK_BLUE and stroke width
1; rasterizing that sequence yields a white background with the
light-gray triangle interior and the dark-blue one-pixel border on the
edges (the border covers the vertices and edge pixels, the interior is
filled, and pixels outside the triangle stay white). -/
theorem claim_C1 (g1 g2 g3 : Point) (gs : Style) (W H : Nat) (c : Canvas)
    (x y : Int) :
    render_c g1 g2 g3 gs =
      [DrawCall.clearScreen WHITE,
       DrawCall.drawTriangle ⟨60, 10⟩ ⟨40, 40⟩ ⟨80, 40⟩
         ⟨LIGHT_GRAY, DARK_BLUE, 1⟩] ∧
    render_cpp =
      [DrawCall.clearScreen WHITE,
       DrawCall.drawTriangle ⟨60, 10⟩ ⟨40, 40⟩ ⟨80, 40⟩
         ⟨LIGHT_GRAY, DARK_BLUE, 1⟩] ∧
    renderFrame W H render_cpp c x y =
      (if inBoundsB W H x y then
        if onStrokeB ⟨60, 10⟩ ⟨40, 40⟩ ⟨80, 40⟩ x y then DARK_BLUE
        else if inFillB ⟨60, 10⟩ ⟨40, 40⟩ ⟨80, 40⟩ x y then LIGHT_GRAY
        else WHITE
       else c x y) ∧
    onStrokeB ⟨60, 10⟩ ⟨40, 40⟩ ⟨80, 40⟩ 60 10 = true ∧
    onStrokeB ⟨60, 10⟩ ⟨40, 40⟩ ⟨80, 40⟩ 50 25 = true ∧
    inFillB ⟨60, 10⟩ ⟨40, 40⟩ ⟨80, 40⟩ 60 30 = true ∧
    onStrokeB ⟨60, 10⟩ ⟨40, 40⟩ ⟨80, 40⟩ 60 30 = false ∧
    inFillB ⟨60, 10⟩ ⟨40, 40⟩ ⟨80, 40⟩ 0 0 = false ∧
    onStrokeB ⟨60, 10⟩ ⟨40, 40⟩ ⟨80, 40⟩ 0 0 = false := by
  refine ⟨render_c_eq_render_cpp g1 g2 g3 gs, rfl, ?_,
    by decide, by decide, by decide, by decide, by decide, by decide⟩
  have hd : decide ((0 : Int) < (1 : Int)) = true := by decide
  cases h : inBoundsB W H x y <;>
    simp [renderFrame, applyCall, idealPixel, render_cpp, h, hd]

/-- C2: in every call sequence emitted by the example render handlers, a
`ClearScreen` precedes every `DrawTriangle`. -/
theorem claim_C2 (g1 g2 g3 : Point) (gs : Style) :
    clearPrecedesDraw (render_c g1 g2 g3 gs) ∧ clearPrecedesDraw render_cpp := by
  rw [render_c_eq_render_cpp]
  constructor <;> · unfold clearPrecedesDraw; decide

/-- C3: in every dispatcher trace the boot event occurs exactly once, as
the very first event, and never among the per-tick events; within every
tick the update event immediately precedes the corresponding render
event (positions 2k+1 and 2k+2 of the trace for tick k). -/
theorem claim_C3 (n k a : Nat) :
    (lifecycleTrace n).count Event.boot = 1 ∧
    (lifecycleTrace n).head? = some Event.boot ∧
    (tickEvents n).count Event.boot = 0 ∧
    (lifecycleTrace (k + 1 + a))[2 * k + 1]? = some Event.update ∧
    (lifecycleTrace (k + 1 + a))[2 * k + 2]? = some Event.render := by
  refine ⟨?_, rfl, count_boot_tickEvents n, ?_, ?_⟩
  · simp [lifecycleTrace, List.count_cons, count_boot_tickEvents n]
  · simpa [lifecycleTrace] using (tickEvents_getElem k a).1
  · simpa [lifecycleTrace] using (tickEvents_getElem k a).2

/-- C4: the example boot and update handlers have empty bodies and submit
no draw calls, applying such an empty phase leaves the canvas unchanged,
and a dispatcher run whose three handlers are all no-ops completes
normally and changes no state. -/
theorem claim_C4 :
    boot_calls = [] ∧ update_calls = [] ∧
    (∀ (W H : Nat) (c : Canvas),
      renderFrame W H boot_calls c = c ∧ renderFrame W H update_calls c = c) ∧
    ∀ (σ : Type) (n : Nat) (s : σ), runLifecycle id id id n s = s := by
  exact ⟨rfl, rfl, fun W H c => ⟨rfl, rfl⟩, fun σ n s => runTicks_id n s⟩

/-- C5: the example update handlers submit no draw calls at all — no
clear, no primitive — so the canvas is unchanged across any update
invocation. -/
theorem claim_C5 :
    update_calls = [] ∧
    update_calls.filter isClear = [] ∧
    update_calls.filter isDraw = [] ∧
    ∀ (W H : Nat) (c : Canvas), renderFrame W H update_calls c = c :=
  ⟨rfl, rfl, rfl, fun W H c => rfl⟩

/-- C6: rasterizing a render-phase call sequence applies each call's
effect in submission order — the image after a sequence split anywhere is
the remaining calls applied over the call applied over the image of the
preceding calls, so later calls draw over earlier ones and no reordering
occurs. -/
theorem claim_C6 (W H : Nat) (pre post : List DrawCall) (call : DrawCall)
    (c : Canvas) :
    renderFrame W H (pre ++ call :: post) c =
      renderFrame W H post (applyCall W H (renderFrame W H pre c) call) := by
  simp [renderFrame, List.foldl_append]

/-- C7: a `DrawTriangle` call with arbitrary (possibly out-of-range)
coordinates always completes: pixels outside the canvas bounds are never
written, and every in-bounds pixel gets exactly the ideal unclipped
image's value — the geometry is clipped to the canvas, never rejected. -/
theorem claim_C7 (W H : Nat) (c : Canvas) (p1 p2 p3 : Point) (s : Style)
    (x y : Int) :
    (inBoundsB W H x y = false →
      applyCall W H c (DrawCall.drawTriangle p1 p2 p3 s) x y = c x y) ∧
    (inBoundsB W H x y = true →
      applyCall W H c (DrawCall.drawTriangle p1 p2 p3 s) x y =
        idealPixel (DrawCall.drawTriangle p1 p2 p3 s) c x y) := by
  constructor <;> intro h <;> simp [applyCall, h]

/-- Witness for C7: a triangle with off-canvas vertices on a 2×2 canvas —
the out-of-bounds pixel (5,5) keeps its old color, and the in-bounds
pixel (1,1) takes the ideal image's value. -/
theorem claim_C7_witness :
    inBoundsB 2 2 5 5 = false ∧
    applyCall 2 2 (fun _ _ => WHITE)
      (DrawCall.drawTriangle ⟨-5, -5⟩ ⟨100, 0⟩ ⟨0, 100⟩
        ⟨LIGHT_GRAY, DARK_BLUE, 1⟩) 5 5 = WHITE ∧
    inBoundsB 2 2 1 1 = true ∧
    applyCall 2 2 (fun _ _ => WHITE)
      (DrawCall.drawTriangle ⟨-5, -5⟩ ⟨100, 0⟩ ⟨0, 100⟩
        ⟨LIGHT_GRAY, DARK_BLUE, 1⟩) 1 1 =
      idealPixel
        (DrawCall.drawTriangle ⟨-5, -5⟩ ⟨100, 0⟩ ⟨0, 100⟩
          ⟨LIGHT_GRAY, DARK_BLUE, 1⟩) (fun _ _ => WHITE) 1 1 :=
  ⟨by decide,
   (claim_C7 2 2 (fun _ _ => WHITE) ⟨-5, -5⟩ ⟨100, 0⟩ ⟨0, 100⟩
     ⟨LIGHT_GRAY, DARK_BLUE, 1⟩ 5 5).1 (by decide),
   by decide,
   (claim_C7 2 2 (fun _ _ => WHITE) ⟨-5, -5⟩ ⟨100, 0⟩ ⟨0, 100⟩
     ⟨LIGHT_GRAY, DARK_BLUE, 1⟩ 1 1).2 (by decide)⟩

/-- C8: degenerate `DrawTriangle` input never faults and yields a
well-defined degraded result — a zero-area (collinear) triangle has an
empty fill; a coincident-point triangle with non-positive stroke width
changes no pixel at all; with positive stroke width it paints exactly the
single stroke pixel at the coincident point (clipped to the canvas). -/
theorem claim_C8 (W H : Nat) (c : Canvas) (p q1 q2 q3 : Point) (s : Style)
    (x y : Int) :
    (cross q1 q2 q3 = 0 → inFillB q1 q2 q3 x y = false) ∧
    (s.stroke_width ≤ 0 →
      applyCall W H c (DrawCall.drawTriangle p p p s) x y = c x y) ∧
    (0 < s.stroke_width →
      applyCall W H c (DrawCall.drawTriangle p p p s) x y =
        if inBoundsB W H x y && (decide (x = p.x) && decide (y = p.y)) then
          s.stroke_color
        else c x y) := by
  have hf : inFillB p p p x y = false :=
    inFillB_degenerate p p p x y (by simp [cross])
  refine ⟨inFillB_degenerate q1 q2 q3 x y, ?_, ?_⟩
  · intro hw
    have hg : decide (0 < s.stroke_width) = false :=
      decide_eq_false (not_lt.mpr hw)
    simp [applyCall, idealPixel, hg, hf]
  · intro hw
    have hg : decide (0 < s.stroke_width) = true := decide_eq_true hw
    cases hb : inBoundsB W H x y <;>
      simp [applyCall, idealPixel, hg, hf, onStrokeB_coincident, hb]

/-- Witness for C8: the collinear triangle (0,0),(1,1),(2,2) has no fill
at pixel (1,2); the coincident triangle at (3,4) with stroke width 0
leaves a white canvas white at (3,4), and with stroke width 1 paints the
dark-blue stroke point there. -/
theorem claim_C8_witness :
    cross ⟨0, 0⟩ ⟨1, 1⟩ ⟨2, 2⟩ = 0 ∧
    inFillB ⟨0, 0⟩ ⟨1, 1⟩ ⟨2, 2⟩ 1 2 = false ∧
    applyCall 8 8 (fun _ _ => WHITE)
      (DrawCall.drawTriangle ⟨3, 4⟩ ⟨3, 4⟩ ⟨3, 4⟩
        ⟨LIGHT_GRAY, DARK_BLUE, 0⟩) 3 4 = WHITE ∧
    applyCall 8 8 (fun _ _ => WHITE)
      (DrawCall.drawTriangle ⟨3, 4⟩ ⟨3, 4⟩ ⟨3, 4⟩
        ⟨LIGHT_GRAY, DARK_BLUE, 1⟩) 3 4 = DARK_BLUE :=
  ⟨by decide,
   (claim_C8 8 8 (fun _ _ => WHITE) ⟨3, 4⟩ ⟨0, 0⟩ ⟨1, 1⟩ ⟨2, 2⟩
     ⟨LIGHT_GRAY, DARK_BLUE, 0⟩ 1 2).1 (by decide),
   (claim_C8 8 8 (fun _ _ => WHITE) ⟨3, 4⟩ ⟨0, 0⟩ ⟨1, 1⟩ ⟨2, 2⟩
     ⟨LIGHT_GRAY, DARK_BLUE, 0⟩ 3 4).2.1 (by decide),
   ((claim_C8 8 8 (fun _ _ => WHITE) ⟨3, 4⟩ ⟨0, 0⟩ ⟨1, 1⟩ ⟨2, 2⟩
     ⟨LIGHT_GRAY, DARK_BLUE, 1⟩ 3 4).2.2 (by decide)).trans (by decide)⟩

/-- C9: the render handlers of `src/assets/main.c` and
`src/assets/main.cpp` are observably equivalent — whatever the initial
contents of the C handler's stack variables, both submit the identical
draw-call sequence ClearScreen(WHITE) then DrawTriangle((60,10),(40,40),
(80,40)) with fill LIGHT_GRAY, stroke DARK_BLUE, stroke width 1. -/
theorem claim_C9 (g1 g2 g3 : Point) (gs : Style) :
    render_c g1 g2 g3 gs = render_cpp ∧
    render_cpp =
      [DrawCall.clearScreen WHITE,
       DrawCall.drawTriangle ⟨60, 10⟩ ⟨40, 40⟩ ⟨80, 40⟩
         ⟨LIGHT_GRAY, DARK_BLUE, 1⟩] :=
  ⟨render_c_eq_render_cpp g1 g2 g3 gs, rfl⟩

/-- C10: the render handler is deterministic and stateless — it reads no
prior state, so any two invocations, whatever the (uninitialized) stack
contents each one starts from, submit the identical draw-call
sequence. -/
theorem claim_C10 (g1 g2 g3 : Point) (gs : Style) (g1' g2' g3' : Point)
    (gs' : Style) :
    render_c g1 g2 g3 gs = render_c g1' g2' g3' gs' := by
  rw [render_c_eq_render_cpp, render_c_eq_render_cpp]
